/-
Verification of the clan-analyzer core (src/api/clan_analyzer.py):
rush scoring (`generate_rush_report`), the historical accumulator
(`update_player_historical_stats`), the war-attack extractor
(`analyze_war_attacks`) and the CWL season completion flag
(`analyze_cwl`).

Modelling conventions:
- Python dicts keyed by strings are modelled as association lists
  `List (String × α)` with Python-dict insertion semantics (first
  occurrence wins on lookup; inserts append; in-place value updates
  keep position).
- Python numbers: levels, counters and town-hall levels are `Nat`;
  fractional quantities (weighted scores, destruction percentages)
  are modelled exactly as rationals `ℚ` (the Python floats are an
  approximation of these exact values).
- `datetime.now()` timestamps are threaded in as an explicit `now`
  string parameter; network fetches are passed in as data.
-/
import Mathlib

/-- Per-asset level table: asset name → list of (town-hall level, max level),
mirroring the Python dict-of-dicts. -/
abbrev LevelTable := List (String × List (Nat × Nat))

/-- `HERO_MAX_LEVELS` from clan_analyzer.py lines 50-56. -/
def HERO_MAX_LEVELS : LevelTable := [
  ("Barbarian King", [(7, 5), (8, 10), (9, 30), (10, 40), (11, 50), (12, 65), (13, 75), (14, 85), (15, 90), (16, 95), (17, 100), (18, 105)]),
  ("Archer Queen", [(8, 10), (9, 30), (10, 40), (11, 50), (12, 65), (13, 75), (14, 85), (15, 90), (16, 95), (17, 100), (18, 105)]),
  ("Grand Warden", [(11, 20), (12, 40), (13, 50), (14, 55), (15, 65), (16, 70), (17, 75), (18, 80)]),
  ("Royal Champion", [(13, 25), (14, 30), (15, 40), (16, 45), (17, 50), (18, 55)]),
  ("Minion Prince", [(9, 10), (10, 20), (11, 30), (12, 40), (13, 50), (14, 60), (15, 70), (16, 80), (17, 90), (18, 95)])]

/-- `TROOP_MAX_LEVELS` from clan_analyzer.py lines 59-79. -/
def TROOP_MAX_LEVELS : LevelTable := [
  ("Barbarian", [(1, 1), (2, 1), (3, 2), (4, 2), (5, 3), (6, 4), (7, 4), (8, 5), (9, 6), (10, 7), (11, 8), (12, 9), (13, 10), (14, 11), (15, 11), (16, 12), (17, 12)]),
  ("Archer", [(1, 1), (2, 1), (3, 2), (4, 2), (5, 3), (6, 4), (7, 4), (8, 5), (9, 6), (10, 7), (11, 8), (12, 9), (13, 10), (14, 11), (15, 11), (16, 12), (17, 12)]),
  ("Giant", [(1, 1), (2, 1), (3, 2), (4, 2), (5, 3), (6, 4), (7, 5), (8, 6), (9, 7), (10, 8), (11, 9), (12, 10), (13, 10), (14, 11), (15, 11), (16, 12), (17, 12)]),
  ("Balloon", [(4, 2), (5, 3), (6, 4), (7, 5), (8, 6), (9, 6), (10, 7), (11, 8), (12, 9), (13, 10), (14, 10), (15, 10), (16, 11), (17, 11)]),
  ("Wizard", [(5, 3), (6, 4), (7, 4), (8, 5), (9, 6), (10, 7), (11, 9), (12, 10), (13, 10), (14, 11), (15, 11), (16, 12), (17, 12)]),
  ("Healer", [(4, 1), (5, 2), (6, 3), (7, 3), (8, 4), (9, 4), (10, 5), (11, 5), (12, 6), (13, 7), (14, 8), (15, 8), (16, 9), (17, 9)]),
  ("Dragon", [(7, 2), (8, 3), (9, 4), (10, 5), (11, 6), (12, 7), (13, 8), (14, 9), (15, 10), (16, 11), (17, 12)]),
  ("P.E.K.K.A", [(8, 3), (9, 4), (10, 5), (11, 6), (12, 7), (13, 8), (14, 9), (15, 10), (16, 10), (17, 11)]),
  ("Golem", [(8, 2), (9, 4), (10, 5), (11, 6), (12, 7), (13, 9), (14, 10), (15, 11), (16, 12), (17, 13)]),
  ("Witch", [(9, 2), (10, 3), (11, 4), (12, 5), (13, 5), (14, 6), (15, 6), (16, 7), (17, 7)]),
  ("Lava Hound", [(9, 2), (10, 3), (11, 4), (12, 5), (13, 6), (14, 6), (15, 6), (16, 7), (17, 7)]),
  ("Bowler", [(10, 2), (11, 3), (12, 4), (13, 5), (14, 6), (15, 6), (16, 7), (17, 7)]),
  ("Miner", [(10, 3), (11, 5), (12, 6), (13, 7), (14, 8), (15, 8), (16, 9), (17, 9)]),
  ("Electro Dragon", [(11, 2), (12, 3), (13, 4), (14, 5), (15, 5), (16, 6), (17, 6)]),
  ("Yeti", [(12, 2), (13, 3), (14, 4), (15, 4), (16, 5), (17, 5)]),
  ("Dragon Rider", [(14, 2), (15, 3), (16, 3), (17, 4)]),
  ("Electro Titan", [(15, 2), (16, 3), (17, 3)]),
  ("Root Rider", [(16, 2), (17, 3)])]

/-- `SPELL_MAX_LEVELS` from clan_analyzer.py lines 82-96. -/
def SPELL_MAX_LEVELS : LevelTable := [
  ("Lightning Spell", [(5, 4), (6, 4), (7, 4), (8, 5), (9, 6), (10, 7), (11, 8), (12, 9), (13, 9), (14, 10), (15, 10), (16, 11), (17, 11)]),
  ("Healing Spell", [(6, 3), (7, 4), (8, 5), (9, 6), (10, 7), (11, 7), (12, 8), (13, 8), (14, 9), (15, 9), (16, 10), (17, 10)]),
  ("Rage Spell", [(7, 4), (8, 5), (9, 5), (10, 5), (11, 6), (12, 6), (13, 6), (14, 6), (15, 6), (16, 6), (17, 6)]),
  ("Jump Spell", [(9, 2), (10, 3), (11, 3), (12, 4), (13, 4), (14, 5), (15, 5), (16, 5), (17, 5)]),
  ("Freeze Spell", [(9, 1), (10, 5), (11, 6), (12, 7), (13, 7), (14, 7), (15, 7), (16, 8), (17, 8)]),
  ("Poison Spell", [(8, 2), (9, 3), (10, 4), (11, 5), (12, 6), (13, 7), (14, 8), (15, 9), (16, 10), (17, 10)]),
  ("Earthquake Spell", [(8, 2), (9, 3), (10, 4), (11, 5), (12, 5), (13, 5), (14, 5), (15, 5), (16, 5), (17, 5)]),
  ("Haste Spell", [(9, 2), (10, 4), (11, 5), (12, 5), (13, 5), (14, 5), (15, 5), (16, 5), (17, 5)]),
  ("Clone Spell", [(10, 3), (11, 5), (12, 6), (13, 7), (14, 7), (15, 8), (16, 8), (17, 8)]),
  ("Invisibility Spell", [(11, 2), (12, 3), (13, 4), (14, 4), (15, 4), (16, 4), (17, 4)]),
  ("Recall Spell", [(13, 2), (14, 3), (15, 4), (16, 5), (17, 5)]),
  ("Bat Spell", [(10, 3), (11, 4), (12, 5), (13, 5), (14, 5), (15, 5), (16, 5), (17, 5)]),
  ("Overgrowth Spell", [(15, 2), (16, 3), (17, 3)])]

/-- Lookup in a level table: Python `TABLE.get(item_name, {})` followed by
`levels.get(th_level)`. -/
def tableLookup (tbl : LevelTable) (name : String) (th : Nat) : Option Nat :=
  match tbl.find? (fun e => e.1 == name) with
  | none => none
  | some e => (e.2.find? (fun p => p.1 == th)).map (·.2)

/-- The three asset categories of the rush scorer. -/
inductive ItemType where
  | hero
  | troop
  | spell
deriving DecidableEq, Repr

/-- `get_max_level_for_th` (clan_analyzer.py lines 211-222). -/
def get_max_level_for_th (item_name : String) (th_level : Nat) (item_type : ItemType) : Option Nat :=
  match item_type with
  | .hero => tableLookup HERO_MAX_LEVELS item_name th_level
  | .troop => tableLookup TROOP_MAX_LEVELS item_name th_level
  | .spell => tableLookup SPELL_MAX_LEVELS item_name th_level

/-- One owned asset of a player snapshot (an entry of the `heroes`, `troops`
or `spells` lists of the player JSON): name, current level, village flag. -/
structure Asset where
  name : String
  level : Nat
  village : String
deriving DecidableEq, Repr

/-- The slice of the player JSON consumed by `generate_rush_report`. -/
structure Player where
  townHallLevel : Nat
  heroes : List Asset
  troops : List Asset
  spells : List Asset
deriving DecidableEq, Repr

/-- A per-asset deficit entry `{name, current, target, missing}`. -/
structure DeficitEntry where
  name : String
  current : Nat
  target : Nat
  missing : Nat
deriving DecidableEq, Repr

/-- The rush report dict built by `generate_rush_report`.  (The tier ≤ 2
short-circuit dict omits the sub-score keys; here they are 0.) -/
structure RushData where
  is_rushed : Bool
  rush_score : ℚ
  rush_percentage : ℚ
  rushed_heroes : List DeficitEntry
  rushed_troops : List DeficitEntry
  rushed_spells : List DeficitEntry
  hero_score : ℚ
  troop_score : ℚ
  spell_score : ℚ
  total_missing_hero_levels : Nat
  status : String
deriving DecidableEq, Repr

/-- Per-category accumulator of the scorer loop: `total_*_possible`,
`total_*_current`, the deficit list, the weighted category score and
(used for heroes) the running total of missing levels. -/
structure CatAcc where
  possible : Nat
  current : Nat
  deficits : List DeficitEntry
  score : ℚ
  missingTotal : Nat
deriving DecidableEq, Repr

/-- One iteration of a category loop of `generate_rush_report`
(lines 265-349): skip non-home assets, skip assets without a positive
reference entry at the previous town hall, otherwise accumulate. -/
def processAsset (ty : ItemType) (weight : ℚ) (prevTH : Nat) (acc : CatAcc) (a : Asset) : CatAcc :=
  if a.village ≠ "home" then acc
  else
    match get_max_level_for_th a.name prevTH ty with
    | none => acc
    | some m =>
      if 0 < m then
        let acc := { acc with possible := acc.possible + m, current := acc.current + min a.level m }
        if a.level < m then
          let missing := m - a.level
          { acc with
            deficits := acc.deficits ++ [⟨a.name, a.level, m, missing⟩],
            score := acc.score + (missing : ℚ) * weight,
            missingTotal := acc.missingTotal + missing }
        else acc
      else acc

/-- A whole category loop of `generate_rush_report`. -/
def processCategory (ty : ItemType) (weight : ℚ) (prevTH : Nat) (assets : List Asset) : CatAcc :=
  assets.foldl (processAsset ty weight prevTH) ⟨0, 0, [], 0, 0⟩

/-- The status classification of `generate_rush_report` (lines 366-380):
ascending thresholds, first match wins; returns (status, is_rushed). -/
def classifyStatus (score : ℚ) : String × Bool :=
  if score ≤ 3 then ("✅ Maxed", false)
  else if score ≤ 10 then ("🟢 Slightly Behind", false)
  else if score ≤ 25 then ("🟡 Moderately Rushed", true)
  else if score ≤ 50 then ("🟠 Rushed", true)
  else ("🔴 Severely Rushed", true)

/-- The hero override of `generate_rush_report` (lines 383-385). -/
def applyHeroOverride (hero_missing : Nat) (sb : String × Bool) : String × Bool :=
  if 20 < hero_missing then ("🔴 Severely Rushed (Heroes)", true) else sb

/-- Rounding to one decimal, Python `round(x, 1)` (over exact rationals). -/
def round1 (q : ℚ) : ℚ := (round (q * 10) : ℤ) / 10

/-- `generate_rush_report` (clan_analyzer.py lines 225-387). -/
def generate_rush_report (player : Player) : RushData :=
  let th_level := player.townHallLevel
  if th_level ≤ 2 then
    { is_rushed := false, rush_score := 0, rush_percentage := 0,
      rushed_heroes := [], rushed_troops := [], rushed_spells := [],
      hero_score := 0, troop_score := 0, spell_score := 0,
      total_missing_hero_levels := 0, status := "New Account" }
  else
    let previous_th := th_level - 1
    let h := processCategory .hero 1 previous_th player.heroes
    let t := processCategory .troop (3/10) previous_th player.troops
    let s := processCategory .spell (4/10) previous_th player.spells
    let score := h.score + t.score + s.score
    let total_possible := h.possible + t.possible + s.possible
    let total_current := h.current + t.current + s.current
    let pct : ℚ :=
      if 0 < total_possible then
        round1 (100 - ((total_current : ℚ) / (total_possible : ℚ)) * 100)
      else 0
    let sb := applyHeroOverride h.missingTotal (classifyStatus score)
    { is_rushed := sb.2, rush_score := score, rush_percentage := pct,
      rushed_heroes := h.deficits, rushed_troops := t.deficits, rushed_spells := s.deficits,
      hero_score := h.score, troop_score := t.score, spell_score := s.score,
      total_missing_hero_levels := h.missingTotal, status := sb.1 }

/-! ### Specification-side scoring functions

Independent restatement of the scoring arithmetic, written per asset
(used to state the claims about `generate_rush_report`). -/

/-- The reference target of one asset: its reference-table entry at the
given (previous) town hall, provided the asset is a home-village asset. -/
def specAssetTarget (ty : ItemType) (prevTH : Nat) (a : Asset) : Option Nat :=
  if a.village = "home" then get_max_level_for_th a.name prevTH ty else none

/-- Unweighted deficit of one asset: `target - current` when the asset is
scoreable and below target, else 0. -/
def specAssetDeficit (ty : ItemType) (prevTH : Nat) (a : Asset) : ℚ :=
  match specAssetTarget ty prevTH a with
  | some t => if a.level < t then (t : ℚ) - (a.level : ℚ) else 0
  | none => 0

/-- Missing levels of one asset, as a natural number. -/
def specAssetMissing (ty : ItemType) (prevTH : Nat) (a : Asset) : Nat :=
  match specAssetTarget ty prevTH a with
  | some t => if a.level < t then t - a.level else 0
  | none => 0

/-- Contribution of one asset to `total_possible`. -/
def specAssetPossible (ty : ItemType) (prevTH : Nat) (a : Asset) : Nat :=
  (specAssetTarget ty prevTH a).getD 0

/-- Contribution of one asset to `total_current`: current level capped at
the target. -/
def specAssetCurrent (ty : ItemType) (prevTH : Nat) (a : Asset) : Nat :=
  match specAssetTarget ty prevTH a with
  | some t => min a.level t
  | none => 0

/-- The deficit entry recorded for one asset, when any. -/
def specDeficitEntry (ty : ItemType) (prevTH : Nat) (a : Asset) : Option DeficitEntry :=
  match specAssetTarget ty prevTH a with
  | some t => if a.level < t then some ⟨a.name, a.level, t, t - a.level⟩ else none
  | none => none

/-- Weighted score of one category: weight times the sum of per-asset
missing levels. -/
def specCatScore (ty : ItemType) (weight : ℚ) (prevTH : Nat) (assets : List Asset) : ℚ :=
  weight * (assets.map (specAssetDeficit ty prevTH)).sum

/-- The claimed value of `rush_score`: weighted sum, over the three
categories, of the missing levels of the player's home-village assets,
judged against the reference tier (current tier − 1), with weights
heroes 1.0, troops 0.3, spells 0.4. -/
def specRushScore (p : Player) : ℚ :=
  specCatScore .hero 1 (p.townHallLevel - 1) p.heroes
  + specCatScore .troop (3/10) (p.townHallLevel - 1) p.troops
  + specCatScore .spell (4/10) (p.townHallLevel - 1) p.spells

/-- The claimed `total_possible`: sum of the reference targets of all
scoreable home assets across the three categories. -/
def specTotalPossible (p : Player) : Nat :=
  (p.heroes.map (specAssetPossible .hero (p.townHallLevel - 1))).sum
  + (p.troops.map (specAssetPossible .troop (p.townHallLevel - 1))).sum
  + (p.spells.map (specAssetPossible .spell (p.townHallLevel - 1))).sum

/-- The claimed `total_current`: sum of `min(current, target)` over the same
assets. -/
def specTotalCurrent (p : Player) : Nat :=
  (p.heroes.map (specAssetCurrent .hero (p.townHallLevel - 1))).sum
  + (p.troops.map (specAssetCurrent .troop (p.townHallLevel - 1))).sum
  + (p.spells.map (specAssetCurrent .spell (p.townHallLevel - 1))).sum

/-- The claimed total of missing hero levels. -/
def specMissingHero (p : Player) : Nat :=
  (p.heroes.map (specAssetMissing .hero (p.townHallLevel - 1))).sum

/-! ### Association lists with Python-dict semantics -/

/-- In-place update of the value at a key (Python `d[k] = f(d[k])` on an
existing key: position kept). -/
def updateAt {α : Type} (l : List (String × α)) (k : String) (f : α → α) : List (String × α) :=
  l.map (fun kv => if kv.1 = k then (kv.1, f kv.2) else kv)

/-- Python dict insert: overwrite in place when the key exists, else append. -/
def dictInsert {α : Type} (l : List (String × α)) (k : String) (v : α) : List (String × α) :=
  if (l.lookup k).isSome then l.map (fun kv => if kv.1 = k then (k, v) else kv)
  else l ++ [(k, v)]

/-! ### Historical accumulator (`update_player_historical_stats`) -/

/-- One attack of the `attack_data['attacks']` list fed to the accumulator
(fields read via `.get`: stars, destruction, defender_th, hit_type). -/
structure AttackInput where
  stars : Nat
  destruction : ℚ
  defender_th : Nat
  hit_type : String
deriving DecidableEq, Repr

/-- One entry of a player's append-only `attacks_history` log. -/
structure AttackRecord where
  war_id : String
  war_type : String
  date : String
  stars : Nat
  destruction : ℚ
  defender_th : Nat
  attacker_th : Nat
  hit_type : String
deriving DecidableEq, Repr

/-- A Historical Player Record (the per-tag value of
`historical_data["players"]`). -/
structure PlayerRecord where
  name : String
  tag : String
  current_th : Nat
  total_attacks : Nat
  total_stars : Nat
  total_destruction : ℚ
  three_stars : Nat
  two_stars : Nat
  one_star : Nat
  zero_stars : Nat
  wars_participated : Nat
  cwl_seasons : Nat
  attacks_history : List AttackRecord
  war_ids : List String
deriving DecidableEq, Repr

/-- The zero-initialized Historical Player Record (clan_analyzer.py
lines 149-165). -/
def initPlayerRecord (name tag : String) (th_level : Nat) : PlayerRecord :=
  { name := name, tag := tag, current_th := th_level,
    total_attacks := 0, total_stars := 0, total_destruction := 0,
    three_stars := 0, two_stars := 0, one_star := 0, zero_stars := 0,
    wars_participated := 0, cwl_seasons := 0,
    attacks_history := [], war_ids := [] }

/-- Recording of one attack (the body of the `for attack in ...` loop,
clan_analyzer.py lines 179-204). -/
def recordAttack (war_id war_type now : String) (th_level : Nat)
    (p : PlayerRecord) (a : AttackInput) : PlayerRecord :=
  let p := { p with
    attacks_history := p.attacks_history ++
      [({ war_id := war_id, war_type := war_type, date := now, stars := a.stars,
          destruction := a.destruction, defender_th := a.defender_th,
          attacker_th := th_level, hit_type := a.hit_type } : AttackRecord)],
    total_attacks := p.total_attacks + 1,
    total_stars := p.total_stars + a.stars,
    total_destruction := p.total_destruction + a.destruction }
  if a.stars = 3 then { p with three_stars := p.three_stars + 1 }
  else if a.stars = 2 then { p with two_stars := p.two_stars + 1 }
  else if a.stars = 1 then { p with one_star := p.one_star + 1 }
  else { p with zero_stars := p.zero_stars + 1 }

/-- The per-record part of `update_player_historical_stats`
(clan_analyzer.py lines 167-204): refresh name and town hall, then — unless
the war was already recorded — append the war id, bump the war count and
record every attack. -/
def updPlayerRecord (player_name : String) (th_level : Nat) (attacks : List AttackInput)
    (war_type war_id now : String) (p : PlayerRecord) : PlayerRecord :=
  let p := { p with name := player_name, current_th := max p.current_th th_level }
  if war_id ∈ p.war_ids then p
  else
    let p := { p with war_ids := p.war_ids ++ [war_id],
                      wars_participated := p.wars_participated + 1 }
    attacks.foldl (recordAttack war_id war_type now th_level) p

/-- `update_player_historical_stats` (clan_analyzer.py lines 146-204),
acting on the `players` map of the historical store. -/
def update_player_historical_stats (players : List (String × PlayerRecord))
    (player_tag player_name : String) (th_level : Nat) (attacks : List AttackInput)
    (war_type war_id now : String) : List (String × PlayerRecord) :=
  let players :=
    if (players.lookup player_tag).isSome then players
    else players ++ [(player_tag, initPlayerRecord player_name player_tag th_level)]
  updateAt players player_tag (updPlayerRecord player_name th_level attacks war_type war_id now)

/-- The purely statistical fields of a Historical Player Record (everything
except the refreshed display name and town hall). -/
def statsOf (p : PlayerRecord) :
    Nat × Nat × ℚ × Nat × Nat × Nat × Nat × Nat × Nat × List AttackRecord × List String :=
  (p.total_attacks, p.total_stars, p.total_destruction, p.three_stars, p.two_stars,
   p.one_star, p.zero_stars, p.wars_participated, p.cwl_seasons,
   p.attacks_history, p.war_ids)

/-- The counting invariant of a Historical Player Record. -/
def statsInvariant (p : PlayerRecord) : Prop :=
  p.total_attacks = p.three_stars + p.two_stars + p.one_star + p.zero_stars ∧
  p.total_attacks = p.attacks_history.length

/-! ### War-attack extractor (`analyze_war_attacks`) -/

/-- One attack entry of a war-roster member (fields read by the extractor). -/
structure WarAttack where
  defenderTag : String
  stars : Nat
  destructionPercentage : ℚ
deriving DecidableEq, Repr

/-- One member of a war roster (clan side or opponent side). -/
structure WarMember where
  name : String
  tag : String
  townhallLevel : Nat
  mapPosition : Nat
  attacks : List WarAttack
deriving DecidableEq, Repr

/-- One entry of a player's per-war `attacks` list in the extractor output. -/
structure AttackDetail where
  stars : Nat
  destruction : ℚ
  defender_th : Nat
  defender_pos : Nat
  hit_type : String
deriving DecidableEq, Repr

/-- The per-player stats dict built by `analyze_war_attacks`
(clan_analyzer.py lines 955-973). -/
structure PlayerWarStats where
  name : String
  tag : String
  th : Nat
  attacks : List AttackDetail
  total_stars : Nat
  total_destruction : ℚ
  new_stars : Nat
  attacks_used : Nat
  missed_attacks : Nat
  three_stars : Nat
  two_stars : Nat
  one_star : Nat
  zero_stars : Nat
  hit_up : Nat
  hit_same : Nat
  hit_down : Nat
deriving DecidableEq, Repr

/-- The zero-initialized per-player war stats of a roster member. -/
def initWarStats (m : WarMember) : PlayerWarStats :=
  { name := m.name, tag := m.tag, th := m.townhallLevel,
    attacks := [], total_stars := 0, total_destruction := 0, new_stars := 0,
    attacks_used := 0, missed_attacks := 0,
    three_stars := 0, two_stars := 0, one_star := 0, zero_stars := 0,
    hit_up := 0, hit_same := 0, hit_down := 0 }

/-- Processing of one attack of a clan member (the body of the
`for attack in attacks` loop, clan_analyzer.py lines 976-1031): resolve the
defender in the opponent lookup (absent → town hall 0, position 0),
classify the hit direction, and accumulate. -/
def applyAttack (opponent_lookup : List (String × WarMember)) (attacker_th : Nat)
    (st : PlayerWarStats) (atk : WarAttack) : PlayerWarStats :=
  let defender := opponent_lookup.lookup atk.defenderTag
  let defender_th := (defender.map (·.townhallLevel)).getD 0
  let defender_pos := (defender.map (·.mapPosition)).getD 0
  let hs :=
    if attacker_th < defender_th then ("↑ UP", { st with hit_up := st.hit_up + 1 })
    else if defender_th < attacker_th then ("↓ DOWN", { st with hit_down := st.hit_down + 1 })
    else ("= SAME", { st with hit_same := st.hit_same + 1 })
  let hit_type := hs.1
  let st := hs.2
  let st := { st with
    attacks := st.attacks ++
      [({ stars := atk.stars, destruction := atk.destructionPercentage,
          defender_th := defender_th, defender_pos := defender_pos,
          hit_type := hit_type } : AttackDetail)],
    total_stars := st.total_stars + atk.stars,
    total_destruction := st.total_destruction + atk.destructionPercentage,
    attacks_used := st.attacks_used + 1 }
  if atk.stars = 3 then { st with three_stars := st.three_stars + 1 }
  else if atk.stars = 2 then { st with two_stars := st.two_stars + 1 }
  else if atk.stars = 1 then { st with one_star := st.one_star + 1 }
  else { st with zero_stars := st.zero_stars + 1 }

/-- Processing of one clan-roster member (the body of the
`for member in members_sorted` loop, clan_analyzer.py lines 947-1035):
ensure a stats entry exists for the member's tag, then either record each
attack or mark the two attacks as missed. -/
def processMember (opponent_lookup : List (String × WarMember))
    (stats : List (String × PlayerWarStats)) (m : WarMember) :
    List (String × PlayerWarStats) :=
  let stats :=
    if (stats.lookup m.tag).isSome then stats
    else stats ++ [(m.tag, initWarStats m)]
  if m.attacks.isEmpty then
    updateAt stats m.tag (fun st => { st with missed_attacks := 2 })
  else
    updateAt stats m.tag (fun st => m.attacks.foldl (applyAttack opponent_lookup m.townhallLevel) st)

/-- The opponent lookup `{m['tag']: m for m in opponent_members}`. -/
def buildOpponentLookup (opponent_members : List WarMember) : List (String × WarMember) :=
  opponent_members.foldl (fun d m => dictInsert d m.tag m) []

/-- `analyze_war_attacks` (clan_analyzer.py lines 924-1076), restricted to
its returned `player_stats` mapping: clan members sorted by map position,
each processed in order. -/
def analyze_war_attacks (clan_members opponent_members : List WarMember) :
    List (String × PlayerWarStats) :=
  let opponent_lookup := buildOpponentLookup opponent_members
  let members_sorted := clan_members.mergeSort (fun a b => a.mapPosition ≤ b.mapPosition)
  members_sorted.foldl (processMember opponent_lookup) []

/-! ### CWL season completion flag (`analyze_cwl`) -/

/-- The slice of a fetched CWL war consumed by the completion-flag logic:
the two side tags and the war state. -/
structure CwlWar where
  clan_tag : String
  opponent_tag : String
  state : String
deriving DecidableEq, Repr

/-- The completion-flag slice of `analyze_cwl` (clan_analyzer.py
lines 1091-1226).  `group_state` is the league group's reported state,
`rounds` the per-round war-tag lists, `fetch` the result of `get_cwl_war`
per war tag (`none` = fetch failed).  The Python local `state` is
initialized to the group state (line 1091) and reassigned to each analyzed
war's state (line 1166); a war counts as analyzed when our clan is one of
its two sides (lines 1155-1165).  Returns `none` when no season record is
written (`wars_analyzed = 0`), else `some complete` with
`complete = (state == "ended")` (line 1225). -/
def analyze_cwl_complete_flag (group_state our_tag : String)
    (rounds : List (List String)) (fetch : List (String × CwlWar)) : Option Bool :=
  let step := fun (acc : String × Nat) (war_tag : String) =>
    if war_tag = "#0" then acc
    else
      match fetch.lookup war_tag with
      | none => acc
      | some war =>
        if war.clan_tag = our_tag ∨ war.opponent_tag = our_tag then (war.state, acc.2 + 1)
        else acc
  let fin := rounds.foldl (fun acc round_data => round_data.foldl step acc)
    ((group_state, 0) : String × Nat)
  if 0 < fin.2 then some (fin.1 == "ended") else none

/-! ### Characterization of the rush scorer -/

lemma processAsset_eq (ty : ItemType) (w : ℚ) (prev : Nat) (acc : CatAcc) (a : Asset) :
    processAsset ty w prev acc a =
      { possible := acc.possible + specAssetPossible ty prev a,
        current := acc.current + specAssetCurrent ty prev a,
        deficits := acc.deficits ++ (specDeficitEntry ty prev a).toList,
        score := acc.score + w * specAssetDeficit ty prev a,
        missingTotal := acc.missingTotal + specAssetMissing ty prev a } := by
  unfold processAsset specAssetPossible specAssetCurrent specAssetDeficit specAssetMissing
    specDeficitEntry specAssetTarget
  by_cases hv : a.village = "home"
  · simp only [hv, ne_eq, not_true_eq_false, if_false, if_true, reduceIte]
    cases hm : get_max_level_for_th a.name prev ty with
    | none => simp
    | some m =>
      rcases Nat.eq_zero_or_pos m with rfl | hm0
      · simp
      · by_cases hl : a.level < m
        · simp only [hm0, if_true, hl, reduceIte, Option.toList_some, Option.getD_some,
            CatAcc.mk.injEq, true_and, and_true]
          rw [Nat.cast_sub hl.le]; ring
        · simp [hm0, hl]
  · simp [hv]

lemma foldl_processAsset_eq (ty : ItemType) (w : ℚ) (prev : Nat) (l : List Asset) (acc : CatAcc) :
    l.foldl (processAsset ty w prev) acc =
      { possible := acc.possible + (l.map (specAssetPossible ty prev)).sum,
        current := acc.current + (l.map (specAssetCurrent ty prev)).sum,
        deficits := acc.deficits ++ l.filterMap (specDeficitEntry ty prev),
        score := acc.score + w * (l.map (specAssetDeficit ty prev)).sum,
        missingTotal := acc.missingTotal + (l.map (specAssetMissing ty prev)).sum } := by
  induction l generalizing acc with
  | nil => simp
  | cons a l ih =>
    rw [List.foldl_cons, processAsset_eq, ih]
    simp only [List.map_cons, List.sum_cons, List.filterMap_cons, CatAcc.mk.injEq]
    refine ⟨by omega, by omega, ?_, by ring, by omega⟩
    cases hE : specDeficitEntry ty prev a <;> simp [hE]

lemma processCategory_eq (ty : ItemType) (w : ℚ) (prev : Nat) (l : List Asset) :
    processCategory ty w prev l =
      { possible := (l.map (specAssetPossible ty prev)).sum,
        current := (l.map (specAssetCurrent ty prev)).sum,
        deficits := l.filterMap (specDeficitEntry ty prev),
        score := w * (l.map (specAssetDeficit ty prev)).sum,
        missingTotal := (l.map (specAssetMissing ty prev)).sum } := by
  unfold processCategory
  rw [foldl_processAsset_eq]
  simp

/-- Full characterization of `generate_rush_report` above tier 2, in terms
of the per-asset specification functions. -/
lemma generate_rush_report_of_ge3 (p : Player) (h : 3 ≤ p.townHallLevel) :
    generate_rush_report p =
      { is_rushed := (applyHeroOverride (specMissingHero p) (classifyStatus (specRushScore p))).2,
        rush_score := specRushScore p,
        rush_percentage :=
          if 0 < specTotalPossible p then
            round1 (100 - ((specTotalCurrent p : ℚ) / (specTotalPossible p : ℚ)) * 100)
          else 0,
        rushed_heroes := p.heroes.filterMap (specDeficitEntry .hero (p.townHallLevel - 1)),
        rushed_troops := p.troops.filterMap (specDeficitEntry .troop (p.townHallLevel - 1)),
        rushed_spells := p.spells.filterMap (specDeficitEntry .spell (p.townHallLevel - 1)),
        hero_score := specCatScore .hero 1 (p.townHallLevel - 1) p.heroes,
        troop_score := specCatScore .troop (3/10) (p.townHallLevel - 1) p.troops,
        spell_score := specCatScore .spell (4/10) (p.townHallLevel - 1) p.spells,
        total_missing_hero_levels := specMissingHero p,
        status := (applyHeroOverride (specMissingHero p) (classifyStatus (specRushScore p))).1 } := by
  have h2 : ¬ p.townHallLevel ≤ 2 := by omega
  unfold generate_rush_report
  rw [if_neg h2]
  simp only [processCategory_eq, specRushScore, specCatScore, specTotalPossible,
    specTotalCurrent, specMissingHero]

lemma rush_score_spec_of_ge3 (p : Player) (h : 3 ≤ p.townHallLevel) :
    (generate_rush_report p).rush_score = specRushScore p := by
  rw [generate_rush_report_of_ge3 p h]

lemma rush_score_val (p : Player) :
    (generate_rush_report p).rush_score =
      if p.townHallLevel ≤ 2 then 0 else specRushScore p := by
  by_cases h : p.townHallLevel ≤ 2
  · simp [generate_rush_report, h]
  · rw [rush_score_spec_of_ge3 p (by omega), if_neg h]

/-- **C1.** For every player snapshot with current tier (town hall level) ≥ 3,
`generate_rush_report`'s `rush_score` equals the weighted sum, over the three
categories, of the missing levels of the player's home-village assets: each
asset's target is the reference-table entry at (asset name, tier − 1); an
asset with no entry at that tier is skipped entirely (it contributes to
neither numerator nor denominator and is never defaulted to zero or treated
as maxed); when current level < target the asset contributes
(target − current) with weight 1.0 for heroes, 0.3 for troops and 0.4 for
spells; assets at or above target contribute 0.  (`specRushScore` spells out
exactly this weighted sum.) -/
theorem rush_score_is_weighted_deficit_sum (p : Player) (h : 3 ≤ p.townHallLevel) :
    (generate_rush_report p).rush_score = specRushScore p :=
  rush_score_spec_of_ge3 p h

/-- Witness for C1: a tier-9 player owning one hero below target
(Barbarian King 7, target 10 at tier 8 → deficit 3), one troop below target
(Barbarian 3, target 5 → 2 × 0.3), one spell below target (Lightning
Spell 4, target 5 → 1 × 0.4), and one spell with no reference entry at
tier 8 (Overgrowth Spell) that is skipped: the score is 3 + 0.6 + 0.4 = 4. -/
theorem rush_score_is_weighted_deficit_sum_witness :
    (3 ≤ (9 : Nat)) ∧
    (generate_rush_report
        ⟨9, [⟨"Barbarian King", 7, "home"⟩], [⟨"Barbarian", 3, "home"⟩],
          [⟨"Lightning Spell", 4, "home"⟩, ⟨"Overgrowth Spell", 1, "home"⟩]⟩).rush_score =
      specRushScore
        ⟨9, [⟨"Barbarian King", 7, "home"⟩], [⟨"Barbarian", 3, "home"⟩],
          [⟨"Lightning Spell", 4, "home"⟩, ⟨"Overgrowth Spell", 1, "home"⟩]⟩ ∧
    specRushScore
        ⟨9, [⟨"Barbarian King", 7, "home"⟩], [⟨"Barbarian", 3, "home"⟩],
          [⟨"Lightning Spell", 4, "home"⟩, ⟨"Overgrowth Spell", 1, "home"⟩]⟩ = 4 :=
  ⟨by decide,
   rush_score_is_weighted_deficit_sum
     ⟨9, [⟨"Barbarian King", 7, "home"⟩], [⟨"Barbarian", 3, "home"⟩],
       [⟨"Lightning Spell", 4, "home"⟩, ⟨"Overgrowth Spell", 1, "home"⟩]⟩ (by decide),
   by
    have h1 : specAssetTarget .hero 8 (⟨"Barbarian King", 7, "home"⟩ : Asset) = some 10 := by decide
    have h2 : specAssetTarget .troop 8 (⟨"Barbarian", 3, "home"⟩ : Asset) = some 5 := by decide
    have h3 : specAssetTarget .spell 8 (⟨"Lightning Spell", 4, "home"⟩ : Asset) = some 5 := by decide
    have h4 : specAssetTarget .spell 8 (⟨"Overgrowth Spell", 1, "home"⟩ : Asset) = none := by decide
    norm_num [specRushScore, specCatScore, specAssetDeficit, h1, h2, h3, h4]⟩

/-- **C2.** For every player snapshot with current tier ≥ 3, as long as the
hero override does not apply (total missing hero levels ≤ 20, the
only case in which the pre-override classification is observable), the
report's status label and `is_rushed` flag are determined from `rush_score`
by first-match-wins ascending thresholds: score ≤ 3 gives "Maxed"
(not rushed); ≤ 10 "Slightly Behind" (not rushed); ≤ 25 "Moderately
Rushed" (rushed); ≤ 50 "Rushed" (rushed); > 50 "Severely Rushed"
(rushed).  (Status labels carry the decorative symbol prefixes of the
source.) -/
theorem status_thresholds_before_override (p : Player) (h : 3 ≤ p.townHallLevel)
    (hm : (generate_rush_report p).total_missing_hero_levels ≤ 20) :
    ((generate_rush_report p).rush_score ≤ 3 →
      (generate_rush_report p).status = "✅ Maxed" ∧
        (generate_rush_report p).is_rushed = false) ∧
    (3 < (generate_rush_report p).rush_score → (generate_rush_report p).rush_score ≤ 10 →
      (generate_rush_report p).status = "🟢 Slightly Behind" ∧
        (generate_rush_report p).is_rushed = false) ∧
    (10 < (generate_rush_report p).rush_score → (generate_rush_report p).rush_score ≤ 25 →
      (generate_rush_report p).status = "🟡 Moderately Rushed" ∧
        (generate_rush_report p).is_rushed = true) ∧
    (25 < (generate_rush_report p).rush_score → (generate_rush_report p).rush_score ≤ 50 →
      (generate_rush_report p).status = "🟠 Rushed" ∧
        (generate_rush_report p).is_rushed = true) ∧
    (50 < (generate_rush_report p).rush_score →
      (generate_rush_report p).status = "🔴 Severely Rushed" ∧
        (generate_rush_report p).is_rushed = true) := by
  rw [generate_rush_report_of_ge3 p h] at hm ⊢
  dsimp only at hm ⊢
  unfold applyHeroOverride
  rw [if_neg (by omega)]
  unfold classifyStatus
  refine ⟨?_, ?_, ?_, ?_, ?_⟩ <;> intros <;> split_ifs <;>
    first
      | exact ⟨rfl, rfl⟩
      | linarith

/-- Witness for C2: a tier-3 player with no assets has rush score 0 ≤ 3,
total missing hero levels 0 ≤ 20, and is classified "Maxed", not rushed. -/
theorem status_thresholds_before_override_witness :
    (3 ≤ (3 : Nat)) ∧
    (generate_rush_report ⟨3, [], [], []⟩).total_missing_hero_levels ≤ 20 ∧
    (generate_rush_report ⟨3, [], [], []⟩).rush_score ≤ 3 ∧
    (generate_rush_report ⟨3, [], [], []⟩).status = "✅ Maxed" ∧
    (generate_rush_report ⟨3, [], [], []⟩).is_rushed = false := by
  have hsc : (generate_rush_report (⟨3, [], [], []⟩ : Player)).rush_score ≤ 3 := by
    rw [rush_score_spec_of_ge3 _ (by decide)]
    norm_num [specRushScore, specCatScore]
  have h := (status_thresholds_before_override ⟨3, [], [], []⟩ (by decide) (by decide)).1 hsc
  exact ⟨by decide, by decide, hsc, h.1, h.2⟩

/-- **C3.** For every player snapshot with current tier ≥ 3, if the report's
total missing hero levels exceeds 20 then the final status is
"Severely Rushed (Heroes)" and `is_rushed` is true, regardless of the
threshold classification of the blended rush score. -/
theorem hero_override_forces_severely_rushed (p : Player) (h : 3 ≤ p.townHallLevel)
    (hm : 20 < (generate_rush_report p).total_missing_hero_levels) :
    (generate_rush_report p).status = "🔴 Severely Rushed (Heroes)" ∧
    (generate_rush_report p).is_rushed = true := by
  rw [generate_rush_report_of_ge3 p h] at hm ⊢
  dsimp only at hm ⊢
  unfold applyHeroOverride
  rw [if_pos (by omega)]
  exact ⟨rfl, rfl⟩

/-- Witness for C3: a tier-10 player whose only hero is Barbarian King at
level 9 (target 30 at tier 9) has exactly 21 missing hero levels — and an
otherwise-low blended score, since no other deficit exists — and is forced
to "Severely Rushed (Heroes)". -/
theorem hero_override_forces_severely_rushed_witness :
    (3 ≤ (10 : Nat)) ∧
    (generate_rush_report ⟨10, [⟨"Barbarian King", 9, "home"⟩], [], []⟩).total_missing_hero_levels
      = 21 ∧
    (generate_rush_report ⟨10, [⟨"Barbarian King", 9, "home"⟩], [], []⟩).status
      = "🔴 Severely Rushed (Heroes)" ∧
    (generate_rush_report ⟨10, [⟨"Barbarian King", 9, "home"⟩], [], []⟩).is_rushed = true := by
  have h := hero_override_forces_severely_rushed ⟨10, [⟨"Barbarian King", 9, "home"⟩], [], []⟩
    (by decide) (by decide)
  exact ⟨by decide, by decide, h.1, h.2⟩

/-- **C4.** For every player snapshot with current tier ≤ 2,
`generate_rush_report` short-circuits and returns a report with
`is_rushed = false`, `rush_score = 0`, status "New Account" and empty
per-category deficit lists. -/
theorem new_account_short_circuit (p : Player) (h : p.townHallLevel ≤ 2) :
    (generate_rush_report p).is_rushed = false ∧
    (generate_rush_report p).rush_score = 0 ∧
    (generate_rush_report p).status = "New Account" ∧
    (generate_rush_report p).rushed_heroes = [] ∧
    (generate_rush_report p).rushed_troops = [] ∧
    (generate_rush_report p).rushed_spells = [] := by
  unfold generate_rush_report
  rw [if_pos h]
  exact ⟨rfl, rfl, rfl, rfl, rfl, rfl⟩

/-- Witness for C4: a tier-1 account that owns a hero still reports
"New Account", score 0, not rushed, empty deficit lists. -/
theorem new_account_short_circuit_witness :
    ((1 : Nat) ≤ 2) ∧
    ((generate_rush_report ⟨1, [⟨"Barbarian King", 5, "home"⟩], [], []⟩).is_rushed = false ∧
     (generate_rush_report ⟨1, [⟨"Barbarian King", 5, "home"⟩], [], []⟩).rush_score = 0 ∧
     (generate_rush_report ⟨1, [⟨"Barbarian King", 5, "home"⟩], [], []⟩).status = "New Account" ∧
     (generate_rush_report ⟨1, [⟨"Barbarian King", 5, "home"⟩], [], []⟩).rushed_heroes = [] ∧
     (generate_rush_report ⟨1, [⟨"Barbarian King", 5, "home"⟩], [], []⟩).rushed_troops = [] ∧
     (generate_rush_report ⟨1, [⟨"Barbarian King", 5, "home"⟩], [], []⟩).rushed_spells = []) :=
  ⟨by decide, new_account_short_circuit ⟨1, [⟨"Barbarian King", 5, "home"⟩], [], []⟩ (by decide)⟩

/-- **C5.** For every player snapshot with current tier ≥ 3,
`rush_percentage` equals 100 − (total_current / total_possible × 100)
rounded to 1 decimal, where `total_possible` sums the reference targets of
all scoreable home assets across the three categories and `total_current`
sums min(current level, target) over the same assets; when
`total_possible` is 0, `rush_percentage` is 0 and no division is performed
(the computation is total). -/
theorem rush_percentage_formula (p : Player) (h : 3 ≤ p.townHallLevel) :
    (specTotalPossible p = 0 → (generate_rush_report p).rush_percentage = 0) ∧
    (0 < specTotalPossible p →
      (generate_rush_report p).rush_percentage =
        round1 (100 - ((specTotalCurrent p : ℚ) / (specTotalPossible p : ℚ)) * 100)) := by
  rw [generate_rush_report_of_ge3 p h]
  dsimp only
  constructor
  · intro h0; rw [if_neg (by omega)]
  · intro h0; rw [if_pos h0]

/-- Witness for C5, exercising both branches at tier 10: with Barbarian
King 9 the scoreable total is 30 > 0 and the percentage follows the rounded
formula; with no assets the scoreable total is 0 and the percentage is 0. -/
theorem rush_percentage_formula_witness :
    ((3 ≤ (10 : Nat)) ∧ 0 < specTotalPossible ⟨10, [⟨"Barbarian King", 9, "home"⟩], [], []⟩ ∧
      (generate_rush_report ⟨10, [⟨"Barbarian King", 9, "home"⟩], [], []⟩).rush_percentage =
        round1 (100 -
          ((specTotalCurrent ⟨10, [⟨"Barbarian King", 9, "home"⟩], [], []⟩ : ℚ) /
            (specTotalPossible ⟨10, [⟨"Barbarian King", 9, "home"⟩], [], []⟩ : ℚ)) * 100)) ∧
    (specTotalPossible ⟨10, [], [], []⟩ = 0 ∧
      (generate_rush_report ⟨10, [], [], []⟩).rush_percentage = 0) :=
  ⟨⟨by decide, by decide,
    (rush_percentage_formula ⟨10, [⟨"Barbarian King", 9, "home"⟩], [], []⟩ (by decide)).2
      (by decide)⟩,
   ⟨by decide,
    (rush_percentage_formula ⟨10, [], [], []⟩ (by decide)).1 (by decide)⟩⟩

lemma specAssetDeficit_nonneg (ty : ItemType) (prev : Nat) (a : Asset) :
    0 ≤ specAssetDeficit ty prev a := by
  unfold specAssetDeficit
  cases h : specAssetTarget ty prev a with
  | none => exact le_refl 0
  | some t =>
    by_cases hl : a.level < t
    · simp only [hl, if_true, reduceIte, sub_nonneg]
      exact_mod_cast hl.le
    · simp [hl]

lemma specAssetDeficit_anti (ty : ItemType) (prev : Nat) {a a' : Asset}
    (hn : a'.name = a.name) (hv : a'.village = a.village) (hl : a'.level ≤ a.level) :
    specAssetDeficit ty prev a ≤ specAssetDeficit ty prev a' := by
  unfold specAssetDeficit specAssetTarget
  rw [hn, hv]
  by_cases hvh : a.village = "home"
  · simp only [hvh, if_true, reduceIte]
    cases hT : get_max_level_for_th a.name prev ty with
    | none => exact le_refl 0
    | some t =>
      by_cases hlt : a.level < t
      · have hlt' : a'.level < t := lt_of_le_of_lt hl hlt
        simp only [hlt, hlt', if_true, reduceIte]
        have : (a'.level : ℚ) ≤ (a.level : ℚ) := by exact_mod_cast hl
        linarith
      · simp only [hlt, reduceIte]
        by_cases hlt' : a'.level < t
        · simp only [hlt', if_true, reduceIte, sub_nonneg]
          exact_mod_cast hlt'.le
        · simp [hlt']
  · simp [hvh]

lemma specCatScore_anti (ty : ItemType) (w : ℚ) (hw : 0 ≤ w) (prev : Nat)
    (l₁ l₂ : List Asset) {a a' : Asset}
    (hn : a'.name = a.name) (hv : a'.village = a.village) (hl : a'.level ≤ a.level) :
    specCatScore ty w prev (l₁ ++ a :: l₂) ≤ specCatScore ty w prev (l₁ ++ a' :: l₂) := by
  unfold specCatScore
  apply mul_le_mul_of_nonneg_left _ hw
  simp only [List.map_append, List.map_cons, List.sum_append, List.sum_cons]
  have := specAssetDeficit_anti ty prev hn hv hl
  linarith

/-- **C7.** For every player snapshot and every single asset of any of the
three home-asset lists, decreasing that asset's current level while holding
the tier and all other assets fixed never decreases the `rush_score`
returned by `generate_rush_report` (stated for an asset in an arbitrary
position of the hero, troop and spell lists respectively). -/
theorem rush_score_monotone_in_asset_level
    (th : Nat) (hr tr sp l₁ l₂ : List Asset) (a a' : Asset)
    (hn : a'.name = a.name) (hv : a'.village = a.village) (hl : a'.level ≤ a.level) :
    (generate_rush_report ⟨th, l₁ ++ a :: l₂, tr, sp⟩).rush_score ≤
      (generate_rush_report ⟨th, l₁ ++ a' :: l₂, tr, sp⟩).rush_score ∧
    (generate_rush_report ⟨th, hr, l₁ ++ a :: l₂, sp⟩).rush_score ≤
      (generate_rush_report ⟨th, hr, l₁ ++ a' :: l₂, sp⟩).rush_score ∧
    (generate_rush_report ⟨th, hr, tr, l₁ ++ a :: l₂⟩).rush_score ≤
      (generate_rush_report ⟨th, hr, tr, l₁ ++ a' :: l₂⟩).rush_score := by
  simp only [rush_score_val]
  by_cases h2 : th ≤ 2
  · simp [h2]
  · simp only [h2, reduceIte, if_false]
    unfold specRushScore
    dsimp only
    refine ⟨?_, ?_, ?_⟩
    · have := specCatScore_anti .hero 1 (by norm_num) (th - 1) l₁ l₂ hn hv hl
      linarith
    · have := specCatScore_anti .troop (3/10) (by norm_num) (th - 1) l₁ l₂ hn hv hl
      linarith
    · have := specCatScore_anti .spell (4/10) (by norm_num) (th - 1) l₁ l₂ hn hv hl
      linarith

/-- Witness for C7: lowering the lone Barbarian King of a tier-10 player
from 30 to 9 (and the same in troop and spell position, where the hero name
has no reference entry) does not decrease the rush score. -/
theorem rush_score_monotone_in_asset_level_witness :
    ((⟨"Barbarian King", 9, "home"⟩ : Asset).name = (⟨"Barbarian King", 30, "home"⟩ : Asset).name) ∧
    ((⟨"Barbarian King", 9, "home"⟩ : Asset).village = (⟨"Barbarian King", 30, "home"⟩ : Asset).village) ∧
    ((⟨"Barbarian King", 9, "home"⟩ : Asset).level ≤ (⟨"Barbarian King", 30, "home"⟩ : Asset).level) ∧
    ((generate_rush_report ⟨10, [⟨"Barbarian King", 30, "home"⟩], [], []⟩).rush_score ≤
      (generate_rush_report ⟨10, [⟨"Barbarian King", 9, "home"⟩], [], []⟩).rush_score) :=
  ⟨rfl, rfl, by decide,
   (rush_score_monotone_in_asset_level 10 [] [] [] [] []
     ⟨"Barbarian King", 30, "home"⟩ ⟨"Barbarian King", 9, "home"⟩ rfl rfl (by decide)).1⟩

/-! ### Association-list lemmas -/

lemma updateAt_cons {α : Type} (a : String) (b : α) (rest : List (String × α))
    (k : String) (f : α → α) :
    updateAt ((a, b) :: rest) k f =
      (if a = k then (a, f b) else (a, b)) :: updateAt rest k f := rfl

lemma lookup_updateAt_self {α : Type} (l : List (String × α)) (k : String) (f : α → α) :
    (updateAt l k f).lookup k = (l.lookup k).map f := by
  induction l with
  | nil => rfl
  | cons kv rest ih =>
    obtain ⟨a, b⟩ := kv
    rw [updateAt_cons]
    by_cases h : a = k
    · subst h
      simp [List.lookup_cons]
    · rw [if_neg h]
      have hb : (k == a) = false := beq_false_of_ne (Ne.symm h)
      simp only [List.lookup_cons, hb]
      exact ih

lemma lookup_updateAt_ne {α : Type} (l : List (String × α)) (k k' : String) (f : α → α)
    (h : k' ≠ k) : (updateAt l k f).lookup k' = l.lookup k' := by
  induction l with
  | nil => rfl
  | cons kv rest ih =>
    obtain ⟨a, b⟩ := kv
    rw [updateAt_cons]
    by_cases hk : a = k
    · subst hk
      have hb : (k' == a) = false := beq_false_of_ne h
      rw [if_pos rfl]
      simp only [List.lookup_cons, hb]
      exact ih
    · rw [if_neg hk]
      simp only [List.lookup_cons]
      cases k' == a with
      | true => rfl
      | false => exact ih

lemma lookup_append_single_self {α : Type} (l : List (String × α)) (k : String) (v : α)
    (h : l.lookup k = none) : (l ++ [(k, v)]).lookup k = some v := by
  induction l with
  | nil => simp
  | cons kv rest ih =>
    obtain ⟨a, b⟩ := kv
    rw [List.cons_append]
    simp only [List.lookup_cons] at h ⊢
    cases hkk : k == a with
    | true => rw [hkk] at h; exact Option.noConfusion h
    | false => rw [hkk] at h; exact ih h

lemma lookup_append_single_ne {α : Type} (l : List (String × α)) (k k' : String) (v : α)
    (h : k' ≠ k) : (l ++ [(k, v)]).lookup k' = l.lookup k' := by
  induction l with
  | nil => simp [List.lookup_cons, beq_false_of_ne h]
  | cons kv rest ih =>
    obtain ⟨a, b⟩ := kv
    rw [List.cons_append]
    simp only [List.lookup_cons]
    cases k' == a with
    | true => rfl
    | false => exact ih

/-! ### Accumulator lemmas -/

lemma recordAttack_war_ids (wid wt now : String) (th : Nat) (p : PlayerRecord) (a : AttackInput) :
    (recordAttack wid wt now th p a).war_ids = p.war_ids := by
  unfold recordAttack
  split_ifs <;> rfl

lemma foldl_recordAttack_war_ids (wid wt now : String) (th : Nat) (l : List AttackInput) :
    ∀ p : PlayerRecord, (l.foldl (recordAttack wid wt now th) p).war_ids = p.war_ids := by
  induction l with
  | nil => intro p; rfl
  | cons a l ih => intro p; rw [List.foldl_cons, ih, recordAttack_war_ids]

lemma updPlayerRecord_mem_war_ids (n : String) (th : Nat) (atks : List AttackInput)
    (wt wid now : String) (p : PlayerRecord) :
    wid ∈ (updPlayerRecord n th atks wt wid now p).war_ids := by
  unfold updPlayerRecord
  by_cases h : wid ∈ p.war_ids
  · rw [if_pos h]; exact h
  · rw [if_neg h, foldl_recordAttack_war_ids]
    exact List.mem_append_right _ (List.mem_singleton.mpr rfl)

lemma updPlayerRecord_statsOf_of_mem (n : String) (th : Nat) (atks : List AttackInput)
    (wt wid now : String) (p : PlayerRecord) (h : wid ∈ p.war_ids) :
    statsOf (updPlayerRecord n th atks wt wid now p) = statsOf p := by
  unfold updPlayerRecord
  rw [if_pos h]
  rfl

lemma update_lookup_self (players : List (String × PlayerRecord))
    (tag n : String) (th : Nat) (atks : List AttackInput) (wt wid now : String) :
    (update_player_historical_stats players tag n th atks wt wid now).lookup tag =
      some (updPlayerRecord n th atks wt wid now
        ((players.lookup tag).getD (initPlayerRecord n tag th))) := by
  unfold update_player_historical_stats
  cases h : players.lookup tag with
  | some rec =>
    simp only [h, Option.isSome_some, if_true, reduceIte, Option.getD_some]
    rw [lookup_updateAt_self, h]
    rfl
  | none =>
    simp only [h, Option.isSome_none, if_false, Bool.false_eq_true, reduceIte, Option.getD_none]
    rw [lookup_updateAt_self, lookup_append_single_self _ _ _ h]
    rfl

/-- **C6.** If the given war id is already present in the player's
recorded-war-id list, `update_player_historical_stats` changes none of the
record's statistics (counters, attack history, war-id list — only the
display name and town hall are refreshed); consequently a second call with
the same war id — with identical or different attack payload — leaves the
Historical Player Record's statistics unchanged from after the first
call. -/
theorem accumulator_idempotent_per_war
    (players : List (String × PlayerRecord)) (tag n1 n2 wt1 wt2 wid t1 t2 : String)
    (th1 th2 : Nat) (a1 a2 : List AttackInput) :
    (∀ rec, players.lookup tag = some rec → wid ∈ rec.war_ids →
      ((update_player_historical_stats players tag n1 th1 a1 wt1 wid t1).lookup tag).map statsOf
        = some (statsOf rec)) ∧
    ((update_player_historical_stats
        (update_player_historical_stats players tag n1 th1 a1 wt1 wid t1)
        tag n2 th2 a2 wt2 wid t2).lookup tag).map statsOf
      = ((update_player_historical_stats players tag n1 th1 a1 wt1 wid t1).lookup tag).map
          statsOf := by
  constructor
  · intro rec hrec hmem
    rw [update_lookup_self, hrec, Option.getD_some]
    simp only [Option.map]
    rw [updPlayerRecord_statsOf_of_mem _ _ _ _ _ _ _ hmem]
  · have h1 := update_lookup_self players tag n1 th1 a1 wt1 wid t1
    rw [update_lookup_self, h1, Option.getD_some]
    simp only [Option.map]
    rw [updPlayerRecord_statsOf_of_mem _ _ _ _ _ _ _ (updPlayerRecord_mem_war_ids _ _ _ _ _ _ _)]

/-- Witness for C6: a store holding one record for tag "#P" that already
recorded war "w1"; re-recording "w1" with a fresh 3-star attack leaves the
statistics untouched, and a third call with a different payload after a
first call is likewise discarded. -/
theorem accumulator_idempotent_per_war_witness :
    (List.lookup "#P"
        [("#P", (⟨"P", "#P", 10, 0, 0, 0, 0, 0, 0, 0, 0, 0, [], ["w1"]⟩ : PlayerRecord))] =
      some (⟨"P", "#P", 10, 0, 0, 0, 0, 0, 0, 0, 0, 0, [], ["w1"]⟩ : PlayerRecord)) ∧
    ("w1" ∈ (⟨"P", "#P", 10, 0, 0, 0, 0, 0, 0, 0, 0, 0, [], ["w1"]⟩ : PlayerRecord).war_ids) ∧
    (((update_player_historical_stats
          [("#P", ⟨"P", "#P", 10, 0, 0, 0, 0, 0, 0, 0, 0, 0, [], ["w1"]⟩)]
          "#P" "P" 10 [⟨3, 50, 10, "= SAME"⟩] "random" "w1" "t1").lookup "#P").map statsOf
      = some (statsOf (⟨"P", "#P", 10, 0, 0, 0, 0, 0, 0, 0, 0, 0, [], ["w1"]⟩ : PlayerRecord))) :=
  ⟨rfl, by decide,
   (accumulator_idempotent_per_war
      [("#P", ⟨"P", "#P", 10, 0, 0, 0, 0, 0, 0, 0, 0, 0, [], ["w1"]⟩)]
      "#P" "P" "P" "random" "random" "w1" "t1" "t1" 10 10
      [⟨3, 50, 10, "= SAME"⟩] []).1
     ⟨"P", "#P", 10, 0, 0, 0, 0, 0, 0, 0, 0, 0, [], ["w1"]⟩ rfl (by decide)⟩

lemma recordAttack_total_attacks (wid wt now : String) (th : Nat)
    (p : PlayerRecord) (a : AttackInput) :
    (recordAttack wid wt now th p a).total_attacks = p.total_attacks + 1 := by
  unfold recordAttack
  split_ifs <;> rfl

lemma recordAttack_history_length (wid wt now : String) (th : Nat)
    (p : PlayerRecord) (a : AttackInput) :
    (recordAttack wid wt now th p a).attacks_history.length =
      p.attacks_history.length + 1 := by
  unfold recordAttack
  split_ifs <;> simp

lemma recordAttack_buckets (wid wt now : String) (th : Nat)
    (p : PlayerRecord) (a : AttackInput) :
    (recordAttack wid wt now th p a).three_stars + (recordAttack wid wt now th p a).two_stars +
      (recordAttack wid wt now th p a).one_star + (recordAttack wid wt now th p a).zero_stars =
      p.three_stars + p.two_stars + p.one_star + p.zero_stars + 1 := by
  unfold recordAttack
  split_ifs <;> simp <;> omega

lemma recordAttack_invariant (wid wt now : String) (th : Nat)
    (p : PlayerRecord) (a : AttackInput) (h : statsInvariant p) :
    statsInvariant (recordAttack wid wt now th p a) := by
  obtain ⟨h1, h2⟩ := h
  constructor
  · rw [recordAttack_total_attacks, recordAttack_buckets, h1]
  · rw [recordAttack_total_attacks, recordAttack_history_length, h2]

lemma foldl_recordAttack_invariant (wid wt now : String) (th : Nat) (l : List AttackInput) :
    ∀ p : PlayerRecord, statsInvariant p →
      statsInvariant (l.foldl (recordAttack wid wt now th) p) := by
  induction l with
  | nil => intro p h; exact h
  | cons a l ih =>
    intro p h
    rw [List.foldl_cons]
    exact ih _ (recordAttack_invariant _ _ _ _ _ _ h)

lemma updPlayerRecord_invariant (n : String) (th : Nat) (atks : List AttackInput)
    (wt wid now : String) (p : PlayerRecord) (h : statsInvariant p) :
    statsInvariant (updPlayerRecord n th atks wt wid now p) := by
  unfold updPlayerRecord
  dsimp only
  split_ifs with hmem
  · exact h
  · exact foldl_recordAttack_invariant _ _ _ _ _ _ h

lemma initPlayerRecord_invariant (n t : String) (th : Nat) :
    statsInvariant (initPlayerRecord n t th) := ⟨rfl, rfl⟩

lemma update_preserves_invariant (players : List (String × PlayerRecord))
    (tag n : String) (th : Nat) (atks : List AttackInput) (wt wid now : String)
    (hinv : ∀ kv ∈ players, statsInvariant kv.2) :
    ∀ kv ∈ update_player_historical_stats players tag n th atks wt wid now,
      statsInvariant kv.2 := by
  intro kv hkv
  unfold update_player_historical_stats at hkv
  have hinv' : ∀ kv' ∈ (if (players.lookup tag).isSome then players
      else players ++ [(tag, initPlayerRecord n tag th)]), statsInvariant kv'.2 := by
    intro kv' hkv'
    split_ifs at hkv'
    · exact hinv kv' hkv'
    · rcases List.mem_append.1 hkv' with hmem | hmem
      · exact hinv kv' hmem
      · rw [List.mem_singleton.1 hmem]
        exact initPlayerRecord_invariant n tag th
  obtain ⟨kv0, hkv0, hfe⟩ := List.mem_map.1 hkv
  by_cases hk : kv0.1 = tag
  · rw [if_pos hk] at hfe
    rw [← hfe]
    exact updPlayerRecord_invariant _ _ _ _ _ _ _ (hinv' kv0 hkv0)
  · rw [if_neg hk] at hfe
    rw [← hfe]
    exact hinv' kv0 hkv0

/-- **C10.** The Historical Player Records maintained by
`update_player_historical_stats` satisfy, starting from the
zero-initialized record and after every call, the counting invariant
`total_attacks = three_stars + two_stars + one_star + zero_stars =
length of attacks_history`: the zero record satisfies it, each recorded
attack appends exactly one history entry, increments `total_attacks` by
one and increments exactly one of the four star buckets (stars outside
{1,2,3} land in the zero-star bucket), and every store whose records all
satisfy the invariant still satisfies it after any call. -/
theorem historical_record_counting_invariant
    (players : List (String × PlayerRecord)) (tag n : String) (th : Nat)
    (atks : List AttackInput) (wt wid now : String)
    (hinv : ∀ kv ∈ players, statsInvariant kv.2) :
    (∀ n' t' th', statsInvariant (initPlayerRecord n' t' th')) ∧
    (∀ (p : PlayerRecord) (a : AttackInput),
      (recordAttack wid wt now th p a).total_attacks = p.total_attacks + 1 ∧
      (recordAttack wid wt now th p a).attacks_history.length =
        p.attacks_history.length + 1 ∧
      (recordAttack wid wt now th p a).three_stars + (recordAttack wid wt now th p a).two_stars +
        (recordAttack wid wt now th p a).one_star + (recordAttack wid wt now th p a).zero_stars =
        p.three_stars + p.two_stars + p.one_star + p.zero_stars + 1) ∧
    (∀ kv ∈ update_player_historical_stats players tag n th atks wt wid now,
      statsInvariant kv.2) :=
  ⟨fun n' t' th' => initPlayerRecord_invariant n' t' th',
   fun p a => ⟨recordAttack_total_attacks wid wt now th p a,
     recordAttack_history_length wid wt now th p a,
     recordAttack_buckets wid wt now th p a⟩,
   update_preserves_invariant players tag n th atks wt wid now hinv⟩

/-- Witness for C10: starting from the empty store and recording a war with
a 3-star and a 0-star attack keeps every record satisfying the counting
invariant. -/
theorem historical_record_counting_invariant_witness :
    (∀ kv ∈ ([] : List (String × PlayerRecord)), statsInvariant kv.2) ∧
    (∀ kv ∈ update_player_historical_stats [] "#P" "P" 10
        [⟨3, 50, 10, "= SAME"⟩, ⟨0, 10, 11, "↑ UP"⟩] "random" "w1" "t1",
      statsInvariant kv.2) :=
  ⟨by simp,
   (historical_record_counting_invariant [] "#P" "P" 10
      [⟨3, 50, 10, "= SAME"⟩, ⟨0, 10, 11, "↑ UP"⟩] "random" "w1" "t1" (by simp)).2.2⟩

/-! ### Extractor lemmas -/

lemma applyAttack_attacks_used (ol : List (String × WarMember)) (th : Nat)
    (st : PlayerWarStats) (atk : WarAttack) :
    (applyAttack ol th st atk).attacks_used = st.attacks_used + 1 := by
  unfold applyAttack
  dsimp only
  split_ifs <;> rfl

lemma applyAttack_missed_attacks (ol : List (String × WarMember)) (th : Nat)
    (st : PlayerWarStats) (atk : WarAttack) :
    (applyAttack ol th st atk).missed_attacks = st.missed_attacks := by
  unfold applyAttack
  dsimp only
  split_ifs <;> rfl

lemma foldl_applyAttack_attacks_used (ol : List (String × WarMember)) (th : Nat)
    (l : List WarAttack) : ∀ st : PlayerWarStats,
    (l.foldl (applyAttack ol th) st).attacks_used = st.attacks_used + l.length := by
  induction l with
  | nil => intro st; rfl
  | cons a l ih =>
    intro st
    rw [List.foldl_cons, ih, applyAttack_attacks_used, List.length_cons]
    omega

lemma foldl_applyAttack_missed_attacks (ol : List (String × WarMember)) (th : Nat)
    (l : List WarAttack) : ∀ st : PlayerWarStats,
    (l.foldl (applyAttack ol th) st).missed_attacks = st.missed_attacks := by
  induction l with
  | nil => intro st; rfl
  | cons a l ih =>
    intro st
    rw [List.foldl_cons, ih, applyAttack_missed_attacks]

lemma processMember_lookup_ne (ol : List (String × WarMember))
    (stats : List (String × PlayerWarStats)) (m' : WarMember) (k : String)
    (hk : k ≠ m'.tag) :
    (processMember ol stats m').lookup k = stats.lookup k := by
  unfold processMember
  dsimp only
  split_ifs <;> rw [lookup_updateAt_ne _ _ _ _ hk] <;>
    first
      | rfl
      | rw [lookup_append_single_ne _ _ _ _ hk]

lemma foldl_processMember_lookup_ne (ol : List (String × WarMember)) (L : List WarMember)
    (k : String) (hk : k ∉ L.map (fun m => m.tag)) :
    ∀ stats : List (String × PlayerWarStats),
      ((L.foldl (processMember ol) stats).lookup k) = stats.lookup k := by
  induction L with
  | nil => intro stats; rfl
  | cons x L ih =>
    intro stats
    rw [List.map_cons, List.mem_cons] at hk
    push_neg at hk
    rw [List.foldl_cons, ih hk.2, processMember_lookup_ne _ _ _ _ hk.1]

lemma processMember_lookup_self_of_none (ol : List (String × WarMember))
    (stats : List (String × PlayerWarStats)) (m : WarMember)
    (h0 : stats.lookup m.tag = none) :
    ∃ st, (processMember ol stats m).lookup m.tag = some st ∧
      st.attacks_used = m.attacks.length ∧
      st.missed_attacks = (if m.attacks.isEmpty then 2 else 0) := by
  unfold processMember
  dsimp only
  rw [h0]
  simp only [Option.isSome_none, Bool.false_eq_true, if_false, reduceIte]
  have happ := lookup_append_single_self stats m.tag (initWarStats m) h0
  by_cases hE : m.attacks.isEmpty
  · rw [if_pos hE, lookup_updateAt_self, happ]
    refine ⟨_, rfl, ?_, ?_⟩
    · rw [List.isEmpty_iff.mp hE]
      rfl
    · rw [if_pos hE]
  · rw [if_neg hE, lookup_updateAt_self, happ]
    refine ⟨_, rfl, ?_, ?_⟩
    · rw [foldl_applyAttack_attacks_used]
      simp [initWarStats]
    · rw [foldl_applyAttack_missed_attacks, if_neg hE]
      rfl

lemma foldl_processMember_lookup (ol : List (String × WarMember)) (L : List WarMember)
    (hnd : (L.map (fun m => m.tag)).Nodup) :
    ∀ stats0 : List (String × PlayerWarStats), ∀ m ∈ L, stats0.lookup m.tag = none →
      ∃ st, (L.foldl (processMember ol) stats0).lookup m.tag = some st ∧
        st.attacks_used = m.attacks.length ∧
        st.missed_attacks = (if m.attacks.isEmpty then 2 else 0) := by
  induction L with
  | nil => intro stats0 m hm; cases hm
  | cons x L ih =>
    rw [List.map_cons, List.nodup_cons] at hnd
    obtain ⟨hx, hndL⟩ := hnd
    intro stats0 m hm h0
    rw [List.foldl_cons]
    rcases List.mem_cons.1 hm with rfl | hm
    · obtain ⟨st, hst, hused, hmissed⟩ := processMember_lookup_self_of_none ol stats0 m h0
      refine ⟨st, ?_, hused, hmissed⟩
      rw [foldl_processMember_lookup_ne ol L m.tag hx, hst]
    · have htag : m.tag ≠ x.tag := by
        intro he
        exact hx (he ▸ List.mem_map_of_mem (fun m => m.tag) hm)
      apply ih hndL _ m hm
      rw [processMember_lookup_ne _ _ _ _ htag]
      exact h0

/-- Counterexample for C8: a war whose single clan member used exactly one
of the two attacks.  The returned mapping reports `attacks_used = 1` but
`missed_attacks = 0`, not the claimed 2 − 1 = 1: the `missed_attacks`
output field is only ever set for members with zero attacks. -/
theorem analyze_war_attacks_missed_counterexample :
    ((analyze_war_attacks [⟨"A", "#A1", 10, 1, [⟨"#O1", 2, 55⟩]⟩] []).lookup "#A1").map
      (fun st => (st.attacks_used, st.missed_attacks)) = some (1, 0) ∧ (0 : Nat) ≠ 2 - 1 := by
  constructor
  · simp [analyze_war_attacks, buildOpponentLookup, processMember, applyAttack, updateAt,
      initWarStats, List.lookup]
  · decide

/-- **C8 (amended).** For every war record whose clan roster has pairwise
distinct member tags, `analyze_war_attacks` includes every clan-roster
member in its output mapping even when that member recorded zero attacks;
a member's `attacks_used` equals their number of recorded attacks, and the
returned `missed_attacks` field is 2 for a member with zero attacks
(= 2 − attacks_used there) and 0 for any member with at least one attack,
regardless of `attacks_used`. -/
theorem analyze_war_attacks_roster_coverage (clan_members opponent_members : List WarMember)
    (hnd : (clan_members.map (fun m => m.tag)).Nodup) :
    ∀ m ∈ clan_members, ∃ st,
      (analyze_war_attacks clan_members opponent_members).lookup m.tag = some st ∧
      st.attacks_used = m.attacks.length ∧
      st.missed_attacks = (if m.attacks.isEmpty then 2 else 0) := by
  intro m hm
  unfold analyze_war_attacks
  dsimp only
  have hperm := List.mergeSort_perm clan_members
    (fun a b => a.mapPosition ≤ b.mapPosition)
  have hmem : m ∈ clan_members.mergeSort (fun a b => a.mapPosition ≤ b.mapPosition) :=
    hperm.mem_iff.mpr hm
  have hnd' : ((clan_members.mergeSort (fun a b => a.mapPosition ≤ b.mapPosition)).map
      (fun m => m.tag)).Nodup :=
    ((hperm.map (fun m => m.tag)).nodup_iff).mpr hnd
  exact foldl_processMember_lookup _ _ hnd' [] m hmem rfl

/-- Witness for C8 (amended): a two-member roster in which "A" attacked once
and "B" never attacked; both appear in the output, with
`attacks_used = 1, missed_attacks = 0` and `attacks_used = 0,
missed_attacks = 2` respectively. -/
theorem analyze_war_attacks_roster_coverage_witness :
    (([⟨"A", "#A1", 10, 1, [⟨"#O1", 2, 55⟩]⟩, ⟨"B", "#B1", 9, 2, []⟩] : List WarMember).map
      (fun m => m.tag)).Nodup ∧
    (∃ st, (analyze_war_attacks [⟨"A", "#A1", 10, 1, [⟨"#O1", 2, 55⟩]⟩, ⟨"B", "#B1", 9, 2, []⟩]
        []).lookup "#A1" = some st ∧ st.attacks_used = 1 ∧ st.missed_attacks = 0) ∧
    (∃ st, (analyze_war_attacks [⟨"A", "#A1", 10, 1, [⟨"#O1", 2, 55⟩]⟩, ⟨"B", "#B1", 9, 2, []⟩]
        []).lookup "#B1" = some st ∧ st.attacks_used = 0 ∧ st.missed_attacks = 2) := by
  refine ⟨by decide, ?_, ?_⟩
  · obtain ⟨st, h1, h2, h3⟩ := analyze_war_attacks_roster_coverage
      [⟨"A", "#A1", 10, 1, [⟨"#O1", 2, 55⟩]⟩, ⟨"B", "#B1", 9, 2, []⟩] [] (by decide)
      ⟨"A", "#A1", 10, 1, [⟨"#O1", 2, 55⟩]⟩ (List.mem_cons_self _ _)
    exact ⟨st, h1, h2, h3⟩
  · obtain ⟨st, h1, h2, h3⟩ := analyze_war_attacks_roster_coverage
      [⟨"A", "#A1", 10, 1, [⟨"#O1", 2, 55⟩]⟩, ⟨"B", "#B1", 9, 2, []⟩] [] (by decide)
      ⟨"B", "#B1", 9, 2, []⟩ (by simp)
    exact ⟨st, h1, h2, h3⟩

/-- **C9 (code bug).** The `complete` flag that `analyze_cwl` writes into a
CWL season record is `state == "ended"` where the local `state`, initialized
to the league group's state, has been reassigned inside the loop to each
analyzed war's state; whenever at least one war is analyzed the flag
therefore reflects the **last analyzed war's** state, not the league
group's.  Concretely: a finished season (group state "ended") whose last
war reports the war-state "warEnded" is written with `complete = false`,
and a war whose state field were literally "ended" would mark an
in-progress season (group state "inWar") complete. -/
theorem cwl_complete_flag_ignores_group_state :
    analyze_cwl_complete_flag "ended" "#A" [["#W1"]]
      [("#W1", ⟨"#A", "#B", "warEnded"⟩)] = some false ∧
    analyze_cwl_complete_flag "inWar" "#A" [["#W1"]]
      [("#W1", ⟨"#A", "#B", "ended"⟩)] = some true := by
  decide
